import Mathlib

/-!
Shallow embedding of the AuraScribe extraction pipeline (src/main.py) and
verification of its specification claims.

The embedding models:
  * `call_with_retries` (src/main.py lines 65-82): the generic retry wrapper
    with transient-error classification and exponential backoff with jitter;
  * `analyze_audio` (src/main.py lines 84-283): the request pipeline —
    credential check, temporary-file save, transcription, empty-transcript
    check, the two-attempt structured-extraction/validation loop, and the
    `finally` cleanup of the temporary artifact;
  * `get_hindi_mock_data` (src/main.py lines 285-301): the fallback document.

External effects are made explicit: the outcome of each invocation of the
speech-to-text call and of the structured-generation call is given by a
stream indexed by invocation number, `random.random()` is a stream of
rationals in [0,1), and the filesystem state relevant to the request is the
presence of the temporary artifact.  Python exceptions are an explicit
error type `Exc`; Python string operations used by the source
(`str.lower`, `str.strip`, `endswith`, the `in` substring test) are given
structural list-based definitions so that all checks compute.
-/

namespace AuraScribe

/-- Lowercases an ASCII letter, as Python `str.lower` does on the ASCII
error-message strings classified by the retry wrapper. -/
def charLower (c : Char) : Char :=
  if 65 ≤ c.toNat ∧ c.toNat ≤ 90 then Char.ofNat (c.toNat + 32) else c

/-- Python `s.lower()` (ASCII fragment). -/
def pyLower (s : String) : String := ⟨s.data.map charLower⟩

/-- Python whitespace characters recognised by `str.strip`. -/
def pyIsSpace (c : Char) : Bool :=
  c == ' ' || c == '\t' || c == '\n' || c == '\r' || c == '\x0b' || c == '\x0c'

/-- Python `s.strip()`: removes leading and trailing whitespace. -/
def pyStrip (s : String) : String :=
  ⟨((s.data.dropWhile pyIsSpace).reverse.dropWhile pyIsSpace).reverse⟩

/-- Helper for the Python substring test: does `pat` occur inside the list? -/
def subAt : List Char → List Char → Bool
  | pat, [] => pat.isPrefixOf []
  | pat, c :: rest => pat.isPrefixOf (c :: rest) || subAt pat rest

/-- Python `pat in s` on strings: substring containment. -/
def containsSubstring (s pat : String) : Bool := subAt pat.data s.data

/-- Python `s.endswith(suf)`. -/
def pyEndsWith (s suf : String) : Bool := suf.data.isSuffixOf s.data

/-- JSON-like values: the payloads produced by `json.loads` on the
structured-generation output, and the documents the endpoint returns. -/
inductive Json where
  | null
  | bool (b : Bool)
  | num (n : Int)
  | str (s : String)
  | arr (xs : List Json)
  | obj (kvs : List (String × Json))

/-- Python exceptions that occur in src/main.py: FastAPI's `HTTPException`
(status code and detail), `json.JSONDecodeError`, `ValueError`, `TypeError`,
`KeyError`, and the opaque errors raised by the OpenAI client calls. -/
inductive Exc where
  | httpExc (status : Nat) (detail : String)
  | jsonDecodeError (msg : String)
  | valueError (msg : String)
  | typeError (msg : String)
  | keyError (key : String)
  | apiError (msg : String)
deriving DecidableEq

/-- Python `str(e)` for each modelled exception.  Starlette's
`HTTPException.__str__` renders `f"{status_code}: {detail}"`; the plain
exceptions render their message (`KeyError` renders the repr of its key). -/
def strExc : Exc → String
  | .httpExc status detail => toString status ++ ": " ++ detail
  | .jsonDecodeError msg => msg
  | .valueError msg => msg
  | .typeError msg => msg
  | .keyError key => "'" ++ key ++ "'"
  | .apiError msg => msg

/-- Which `except` clause of the extraction loop (src/main.py lines 245-263)
catches a given exception: `json.JSONDecodeError` is checked first, then
`ValueError` (of which `JSONDecodeError` is a subclass, respected here by
the match order), then the blanket `Exception`. -/
inductive Branch where
  | jsonDecode
  | valueErr
  | generic
deriving DecidableEq

/-- Dispatch of an exception to the extraction loop's `except` clauses. -/
def pyBranch : Exc → Branch
  | .jsonDecodeError _ => .jsonDecode
  | .valueError _ => .valueErr
  | _ => .generic

/-- Result of one external invocation: a value, or a raised exception. -/
inductive Outcome (α : Type) where
  | ok (a : α)
  | err (e : Exc)

/-- Substrings whose presence in the lowercased error text classifies an
error as transient (src/main.py line 76). -/
def transientPatterns : List String :=
  ["rate limit", "quota", "server error", "connection", "timeout"]

/-- Transience classification of src/main.py lines 75-76: the lowercased
`str(e)` mentions one of the five transient patterns. -/
def isTransient (e : Exc) : Bool :=
  transientPatterns.any (fun p => containsSubstring (pyLower (strExc e)) p)

/-- The `base_delay` of src/main.py line 67. -/
def base_delay : ℚ := 1

/-- Backoff delay of src/main.py line 78:
`(base_delay * (2 ** attempt)) + (random.random() * 0.5)`, with the
`random.random()` draw for the given attempt supplied by `rand`. -/
def backoffDelay (rand : Nat → ℚ) (attempt : Nat) : ℚ :=
  base_delay * 2 ^ attempt + rand attempt * (1 / 2)

/-- Everything observable about one `call_with_retries` invocation: the
returned value or raised exception, the number of times the wrapped
operation was invoked, and the backoff delays slept between attempts. -/
structure RetryRes (α : Type) where
  result : Except Exc α
  calls : Nat
  delays : List ℚ

/-- Loop body of `call_with_retries` (src/main.py lines 68-82).  `attempt`
is the loop index, `fuel` the number of loop iterations left
(`max_retries - attempt`); the `fuel = 0` case is Python's implicit
`return None` after the loop, unreachable because the iteration with
`attempt == max_retries - 1` always returns or raises. -/
def retryAux {α : Type} (op : Nat → Outcome α) (rand : Nat → ℚ) :
    Nat → Nat → RetryRes α
  | _, 0 => ⟨.error (.apiError "unreachable: retry loop exhausted"), 0, []⟩
  | attempt, fuel + 1 =>
    match op attempt with
    | .ok a => ⟨.ok a, 1, []⟩
    | .err e =>
      if fuel == 0 then ⟨.error e, 1, []⟩
      else if isTransient e then
        let r := retryAux op rand (attempt + 1) fuel
        ⟨r.result, r.calls + 1, backoffDelay rand attempt :: r.delays⟩
      else ⟨.error e, 1, []⟩

/-- Function `call_with_retries` (src/main.py lines 65-82) with `max_retries = 3`.
The wrapped operation is a stream giving the outcome of each invocation;
`rand` supplies the `random.random()` draws used for jitter. -/
def call_with_retries {α : Type} (op : Nat → Outcome α) (rand : Nat → ℚ) :
    RetryRes α :=
  retryAux op rand 0 3

theorem retry_first_ok {α : Type} (op : Nat → Outcome α) (rand : Nat → ℚ)
    (a : α) (h : op 0 = .ok a) :
    call_with_retries op rand = ⟨.ok a, 1, []⟩ := by
  simp [call_with_retries, retryAux, h]

theorem retry_first_nontransient {α : Type} (op : Nat → Outcome α)
    (rand : Nat → ℚ) (e : Exc) (h : op 0 = .err e)
    (ht : isTransient e = false) :
    call_with_retries op rand = ⟨.error e, 1, []⟩ := by
  simp [call_with_retries, retryAux, h, ht]

theorem retry_second_ok {α : Type} (op : Nat → Outcome α) (rand : Nat → ℚ)
    (e0 : Exc) (a : α) (h0 : op 0 = .err e0) (ht0 : isTransient e0 = true)
    (h1 : op 1 = .ok a) :
    call_with_retries op rand = ⟨.ok a, 2, [backoffDelay rand 0]⟩ := by
  simp [call_with_retries, retryAux, h0, ht0, h1]

theorem retry_third_ok {α : Type} (op : Nat → Outcome α) (rand : Nat → ℚ)
    (e0 e1 : Exc) (a : α) (h0 : op 0 = .err e0) (ht0 : isTransient e0 = true)
    (h1 : op 1 = .err e1) (ht1 : isTransient e1 = true) (h2 : op 2 = .ok a) :
    call_with_retries op rand =
      ⟨.ok a, 3, [backoffDelay rand 0, backoffDelay rand 1]⟩ := by
  simp [call_with_retries, retryAux, h0, ht0, h1, ht1, h2]

theorem retry_third_err {α : Type} (op : Nat → Outcome α) (rand : Nat → ℚ)
    (e0 e1 e2 : Exc) (h0 : op 0 = .err e0) (ht0 : isTransient e0 = true)
    (h1 : op 1 = .err e1) (ht1 : isTransient e1 = true)
    (h2 : op 2 = .err e2) :
    call_with_retries op rand =
      ⟨.error e2, 3, [backoffDelay rand 0, backoffDelay rand 1]⟩ := by
  simp [call_with_retries, retryAux, h0, ht0, h1, ht1, h2]

/-- Association lookup on an object's key-value list: first binding wins,
as in a Python dict (whose keys are unique). -/
def lookupKVs (kvs : List (String × Json)) (k : String) : Option Json :=
  (kvs.find? (fun kv => kv.1 == k)).map (fun kv => kv.2)

/-- Value of a key in a JSON object, if the value is an object and the key
is present. -/
def Json.lookup : Json → String → Option Json
  | .obj kvs, k => lookupKVs kvs k
  | _, _ => none

/-- Python `key in x` for the payload values that occur here: key test on a
dict, element equality on a list (a string key can only equal string
elements), substring test on a string, and `TypeError` on non-iterables. -/
def pyContains (j : Json) (key : String) : Except Exc Bool :=
  match j with
  | .obj kvs => .ok (kvs.any (fun kv => kv.1 == key))
  | .arr xs =>
    .ok (xs.any (fun x => match x with | .str s => s == key | _ => false))
  | .str s => .ok (containsSubstring s key)
  | _ => .error (.typeError "argument is not iterable")

/-- Python `x[key]` with a string key: dict lookup (raising `KeyError` when
absent), `TypeError` on anything else. -/
def pySubscript (j : Json) (key : String) : Except Exc Json :=
  match j with
  | .obj kvs =>
    match kvs.find? (fun kv => kv.1 == key) with
    | some kv => .ok kv.2
    | none => .error (.keyError key)
  | .arr _ => .error (.typeError "list indices must be integers")
  | .str _ => .error (.typeError "string indices must be integers")
  | _ => .error (.typeError "object is not subscriptable")

/-- Updates the first binding of `k` in place, or appends a new binding at
the end, matching Python dict item assignment (insertion order kept). -/
def setKVs : List (String × Json) → String → Json → List (String × Json)
  | [], k, v => [(k, v)]
  | kv :: rest, k, v =>
    if kv.1 == k then (k, v) :: rest else kv :: setKVs rest k v

/-- Python `x[key] = v` with a string key: dict item assignment, `TypeError`
on anything else. -/
def pySetItem (j : Json) (key : String) (v : Json) : Except Exc Json :=
  match j with
  | .obj kvs => .ok (.obj (setKVs kvs key v))
  | _ => .error (.typeError "object does not support item assignment")

/-- The `required_fields` list of src/main.py lines 232-233. -/
def required_fields : List String :=
  ["presenting_complaints", "past_history", "investigations_ordered",
   "diagnosis", "treatment", "follow_up"]

/-- The list comprehension of src/main.py line 234:
`[f for f in required_fields if f not in analysis["note"]]`, with each
membership test evaluated left to right and any raised exception
propagating. -/
def missingFields (note : Json) : List String → Except Exc (List String)
  | [] => .ok []
  | f :: fs =>
    match pyContains note f with
    | .error e => .error e
    | .ok h =>
      match missingFields note fs with
      | .error e => .error e
      | .ok rest => .ok (if h then rest else f :: rest)

/-- Validation of one decoded generation payload, src/main.py lines
229-240: the `"note"` presence check, the required-field check on
`analysis["note"]`, and the `"questions"` default.  Returns the (possibly
updated) payload, or the raised exception. -/
def validateAnalysis (analysis : Json) : Except Exc Json :=
  match pyContains analysis "note" with
  | .error e => .error e
  | .ok hasNote =>
    if !hasNote then .error (.valueError "Response missing 'note' field")
    else
      match pySubscript analysis "note" with
      | .error e => .error e
      | .ok note =>
        match missingFields note required_fields with
        | .error e => .error e
        | .ok missing =>
          if missing.isEmpty then
            match pyContains analysis "questions" with
            | .error e => .error e
            | .ok hasQ =>
              if !hasQ then pySetItem analysis "questions" (Json.arr [])
              else .ok analysis
          else
            .error (.valueError
              ("Note missing required fields: " ++
                String.intercalate ", " missing))

/-- The raw content string of one structured-generation response, as seen
by `json.loads` (src/main.py line 226): either text that fails to decode
(`json.JSONDecodeError` with the given rendered message) or a decoded
JSON value. -/
inductive Content where
  | malformed (msg : String)
  | jsonVal (j : Json)

/-- The `try` body of one extraction attempt (src/main.py lines 213-243):
the generation call through `call_with_retries` (consuming the generation
stream from position `off`), then `json.loads`, then structural
validation.  Returns the validated payload or the raised exception, plus
the number of generation invocations consumed. -/
def attemptBody (gen : Nat → Outcome Content) (rand : Nat → ℚ) (off : Nat) :
    Except Exc Json × Nat :=
  let r := call_with_retries (fun a => gen (off + a)) (fun a => rand (off + a))
  match r.result with
  | .error e => (.error e, r.calls)
  | .ok (.malformed m) => (.error (.jsonDecodeError m), r.calls)
  | .ok (.jsonVal j) => (validateAnalysis j, r.calls)

/-- The extraction retry loop `for attempt in range(2)` of src/main.py
lines 212-263, started with `fuel = 2`.  On a `json.JSONDecodeError` or
`ValueError` the attempt records `last_error` and retries if it was not
the last attempt, else raises `HTTPException(500, last_error)`; any other
exception raises `HTTPException(500, "LLM call failed: ...")` at once.
The `fuel = 0` case is the `if not analysis` check of lines 265-266,
reachable only if every iteration continued.  Returns the validated
payload or raised exception, the generation invocations consumed, and the
number of validation attempts made. -/
def extractLoop (gen : Nat → Outcome Content) (rand : Nat → ℚ) :
    Nat → Nat → String → Except Exc Json × Nat × Nat
  | _, 0, lastErr =>
    (.error (.httpExc 500 ("Failed to generate valid analysis: " ++ lastErr)),
      0, 0)
  | off, fuel + 1, _lastErr =>
    let (body, n) := attemptBody gen rand off
    match body with
    | .ok a => (.ok a, n, 1)
    | .error e =>
      match e with
      | .jsonDecodeError m =>
        let le := "Invalid JSON from LLM: " ++ m
        if fuel == 0 then (.error (.httpExc 500 le), n, 1)
        else
          let (r, gn, va) := extractLoop gen rand (off + n) fuel le
          (r, n + gn, va + 1)
      | .valueError m =>
        let le := "Invalid response structure: " ++ m
        if fuel == 0 then (.error (.httpExc 500 le), n, 1)
        else
          let (r, gn, va) := extractLoop gen rand (off + n) fuel le
          (r, n + gn, va + 1)
      | e' => (.error (.httpExc 500 ("LLM call failed: " ++ strExc e')), n, 1)

/-- Function `get_hindi_mock_data` (src/main.py lines 285-301): the fixed fallback
document. -/
def get_hindi_mock_data : Json :=
  .obj
    [("note", .obj
      [("presenting_complaints", .str
        "Severe headache and fever for 2 days. Describes it as 'sir mein bahut dard aur tez bukhaar'."),
       ("past_history", .str
        "Patient mentions mild hypertension in the past, no regular medication."),
       ("investigations_ordered", .str
        "Complete Blood Count (CBC), Dengue NS1 Antigen."),
       ("diagnosis", .str "Viral Fever, suspected Dengue."),
       ("treatment", .str
        "Tab. Paracetamol 650mg SOS for fever, plenty of oral fluids."),
       ("follow_up", .str
        "Return in 48 hours for review or earlier if abdominal pain develops.")]),
     ("questions", .arr
      [.str "Kya aapko thand lag kar bukhaar aa raha hai?",
       .str "Body rash ya vomiting jaisa kuch hai?"]),
     ("transcript", .str
      "नमस्ते डॉक्टर साहब, मुझे दो दिन से बहुत तेज़ बुख़ar और सिर में दर्द है। पूरा बदन टूट रहा है।")]

/-- The fallback document after src/main.py line 98 sets
`mock_data["error"]`. -/
def mock_with_error : Json :=
  .obj
    [("note", .obj
      [("presenting_complaints", .str
        "Severe headache and fever for 2 days. Describes it as 'sir mein bahut dard aur tez bukhaar'."),
       ("past_history", .str
        "Patient mentions mild hypertension in the past, no regular medication."),
       ("investigations_ordered", .str
        "Complete Blood Count (CBC), Dengue NS1 Antigen."),
       ("diagnosis", .str "Viral Fever, suspected Dengue."),
       ("treatment", .str
        "Tab. Paracetamol 650mg SOS for fever, plenty of oral fluids."),
       ("follow_up", .str
        "Return in 48 hours for review or earlier if abdominal pain develops.")]),
     ("questions", .arr
      [.str "Kya aapko thand lag kar bukhaar aa raha hai?",
       .str "Body rash ya vomiting jaisa kuch hai?"]),
     ("transcript", .str
      "नमस्ते डॉक्टर साहब, मुझे दो दिन से बहुत तेज़ बुख़ar और सिर में दर्द है। पूरा बदन टूट रहा है।"),
     ("error", .str
      "API Key is missing or placeholder. Please update .env file.")]

theorem mock_with_error_def :
    pySetItem get_hindi_mock_data "error"
        (.str "API Key is missing or placeholder. Please update .env file.") =
      .ok mock_with_error := by
  rfl

/-- The external world one request interacts with: the configured
credential, the uploaded file's name, the outcome of writing the temporary
file (`none` = success; `some msg` = an exception whose `str` is `msg`,
with `saveCreated` recording whether the file came into being before the
failure), the per-invocation outcome streams of the two OpenAI calls, and
the `random.random()` streams used for their backoff jitter. -/
structure Env where
  apiKey : String
  filename : String
  saveErr : Option String
  saveCreated : Bool
  transcribe : Nat → Outcome String
  gen : Nat → Outcome Content
  randT : Nat → ℚ
  randG : Nat → ℚ

/-- The `temp_file_path` computation of src/main.py lines 90-92. -/
def temp_file_path (filename : String) : String :=
  let p := "temp_" ++ filename
  if pyEndsWith p ".wav" then p else p ++ ".wav"

/-- Outcome of the `try` body of `analyze_audio` (everything before the
`finally`): the response (returned document or raised `HTTPException`),
whether the temporary file exists when the `finally` runs, and how many
times each external call and the validation loop ran. -/
structure CoreResult where
  response : Except Exc Json
  created : Bool
  transcribeCalls : Nat
  genCalls : Nat
  valAttempts : Nat

/-- The `try` body of `analyze_audio` (src/main.py lines 94-276): the
credential check (line 96), the temporary-file save (lines 102-107), the
retried transcription and empty-transcript check (lines 110-124, where the
`HTTPException(400)` raised for an empty transcript is caught by the inner
`except Exception` of line 123 and re-wrapped), the extraction loop, and
the final `analysis["transcript"]` assignment (line 268; were it to raise,
the outer handler of lines 274-276 would wrap it). -/
def analyze_core (env : Env) : CoreResult :=
  if env.apiKey == "" || env.apiKey == "your_api_key_here" then
    ⟨.ok mock_with_error, false, 0, 0, 0⟩
  else
    match env.saveErr with
    | some m =>
      ⟨.error (.httpExc 500 ("Failed to save audio file: " ++ m)),
        env.saveCreated, 0, 0, 0⟩
    | none =>
      let tr := call_with_retries env.transcribe env.randT
      match tr.result with
      | .error e =>
        ⟨.error (.httpExc 500 ("Transcription failed: " ++ strExc e)),
          true, tr.calls, 0, 0⟩
      | .ok t =>
        if t == "" || pyStrip t == "" then
          ⟨.error (.httpExc 500 ("Transcription failed: " ++
              strExc (.httpExc 400 "Transcription returned empty text"))),
            true, tr.calls, 0, 0⟩
        else
          let (res, gcalls, vattempts) := extractLoop env.gen env.randG 0 2 "None"
          match res with
          | .error e => ⟨.error e, true, tr.calls, gcalls, vattempts⟩
          | .ok analysis =>
            match pySetItem analysis "transcript" (.str t) with
            | .ok doc => ⟨.ok doc, true, tr.calls, gcalls, vattempts⟩
            | .error e =>
              ⟨.error (.httpExc 500 ("Unexpected error: " ++ strExc e)),
                true, tr.calls, gcalls, vattempts⟩

/-- What a finished request looks like from outside: the response, whether
the temporary artifact is still on disk, the external-call and
validation-attempt counts, and how many cleanup-failure warnings were
logged. -/
structure RunResult where
  response : Except Exc Json
  tempExists : Bool
  transcribeCalls : Nat
  genCalls : Nat
  valAttempts : Nat
  cleanupWarnings : Nat

/-- Function `analyze_audio` (src/main.py lines 84-283): the `try` body followed by
the `finally` block of lines 277-283, which removes the temporary file if
it exists; a failed `os.remove` (modelled by `removeFails`) is logged as a
warning and swallowed, leaving the file behind and the response intact. -/
def analyze_audio (env : Env) (removeFails : Bool) : RunResult :=
  let c := analyze_core env
  if c.created then
    if removeFails then
      ⟨c.response, true, c.transcribeCalls, c.genCalls, c.valAttempts, 1⟩
    else
      ⟨c.response, false, c.transcribeCalls, c.genCalls, c.valAttempts, 0⟩
  else
    ⟨c.response, false, c.transcribeCalls, c.genCalls, c.valAttempts, 0⟩

theorem analyze_audio_response (env : Env) (b : Bool) :
    (analyze_audio env b).response = (analyze_core env).response := by
  unfold analyze_audio
  dsimp only
  split_ifs <;> rfl

theorem analyze_audio_genCalls (env : Env) (b : Bool) :
    (analyze_audio env b).genCalls = (analyze_core env).genCalls := by
  unfold analyze_audio
  dsimp only
  split_ifs <;> rfl

theorem analyze_audio_valAttempts (env : Env) (b : Bool) :
    (analyze_audio env b).valAttempts = (analyze_core env).valAttempts := by
  unfold analyze_audio
  dsimp only
  split_ifs <;> rfl

theorem analyze_audio_transcribeCalls (env : Env) (b : Bool) :
    (analyze_audio env b).transcribeCalls = (analyze_core env).transcribeCalls := by
  unfold analyze_audio
  dsimp only
  split_ifs <;> rfl

/-- Claim C3: an operation that fails on its first two invocations with
transient-classified errors and succeeds on the third makes the Retrying
Caller return the success value after exactly 3 invocations, with the
delay before retry `k` equal to `base * 2^k + jitter_k` where `base = 1`
and the jitter term lies in `[0, 0.5)`, so the two delays are strictly
increasing. -/
theorem claim_C3 (α : Type) (op : Nat → Outcome α) (rand : Nat → ℚ)
    (e0 e1 : Exc) (a : α)
    (h0 : op 0 = .err e0) (ht0 : isTransient e0 = true)
    (h1 : op 1 = .err e1) (ht1 : isTransient e1 = true)
    (h2 : op 2 = .ok a)
    (hr0 : 0 ≤ rand 0 ∧ rand 0 < 1) (hr1 : 0 ≤ rand 1 ∧ rand 1 < 1) :
    call_with_retries op rand =
      ⟨.ok a, 3, [backoffDelay rand 0, backoffDelay rand 1]⟩ ∧
    backoffDelay rand 0 = base_delay * 2 ^ 0 + rand 0 * (1 / 2) ∧
    backoffDelay rand 1 = base_delay * 2 ^ 1 + rand 1 * (1 / 2) ∧
    0 ≤ rand 0 * (1 / 2) ∧ rand 0 * (1 / 2) < 1 / 2 ∧
    0 ≤ rand 1 * (1 / 2) ∧ rand 1 * (1 / 2) < 1 / 2 ∧
    backoffDelay rand 0 < backoffDelay rand 1 := by
  obtain ⟨hr0l, hr0u⟩ := hr0
  obtain ⟨hr1l, hr1u⟩ := hr1
  refine ⟨retry_third_ok op rand e0 e1 a h0 ht0 h1 ht1 h2, rfl, rfl, ?_, ?_, ?_, ?_, ?_⟩
  · linarith
  · linarith
  · linarith
  · linarith
  · simp only [backoffDelay, base_delay]
    norm_num
    linarith

theorem claim_C3_witness :
    (fun n => if n < 2 then Outcome.err (α := Nat) (.apiError "Request timeout") else .ok 7) 0 =
        .err (.apiError "Request timeout") ∧
    isTransient (.apiError "Request timeout") = true ∧
    call_with_retries
        (fun n => if n < 2 then Outcome.err (α := Nat) (.apiError "Request timeout") else .ok 7)
        (fun _ => 0) =
      ⟨.ok 7, 3, [backoffDelay (fun _ => 0) 0, backoffDelay (fun _ => 0) 1]⟩ := by
  refine ⟨rfl, by decide, ?_⟩
  exact (claim_C3 Nat
    (fun n => if n < 2 then Outcome.err (.apiError "Request timeout") else .ok 7)
    (fun _ => 0) (.apiError "Request timeout") (.apiError "Request timeout") 7
    rfl (by decide) rfl (by decide) rfl
    ⟨by norm_num, by norm_num⟩ ⟨by norm_num, by norm_num⟩).1

/-- Claim C4: an operation whose failure is not classified as transient is
invoked exactly once by the Retrying Caller, no backoff delay occurs, and
the very error value it raised propagates unchanged; likewise when all
three attempts fail, the error raised on the final attempt propagates
unchanged. -/
theorem claim_C4 :
    (∀ (α : Type) (op : Nat → Outcome α) (rand : Nat → ℚ) (e : Exc),
      op 0 = .err e → isTransient e = false →
      call_with_retries op rand = ⟨.error e, 1, []⟩) ∧
    (∀ (α : Type) (op : Nat → Outcome α) (rand : Nat → ℚ) (e0 e1 e2 : Exc),
      op 0 = .err e0 → isTransient e0 = true →
      op 1 = .err e1 → isTransient e1 = true →
      op 2 = .err e2 →
      (call_with_retries op rand).result = .error e2) := by
  constructor
  · intro α op rand e h ht
    exact retry_first_nontransient op rand e h ht
  · intro α op rand e0 e1 e2 h0 ht0 h1 ht1 h2
    rw [retry_third_err op rand e0 e1 e2 h0 ht0 h1 ht1 h2]

theorem claim_C4_witness :
    call_with_retries (fun _ => Outcome.err (α := Nat) (.apiError "invalid api key"))
        (fun _ => 0) = ⟨.error (.apiError "invalid api key"), 1, []⟩ ∧
    (call_with_retries (fun _ => Outcome.err (α := Nat) (.apiError "Request timeout"))
        (fun _ => 0)).result = .error (.apiError "Request timeout") := by
  constructor
  · exact claim_C4.1 Nat (fun _ => Outcome.err (.apiError "invalid api key"))
      (fun _ => 0) (.apiError "invalid api key") rfl (by decide)
  · exact claim_C4.2 Nat (fun _ => Outcome.err (.apiError "Request timeout"))
      (fun _ => 0) (.apiError "Request timeout") (.apiError "Request timeout")
      (.apiError "Request timeout") rfl (by decide) rfl (by decide) rfl

/-- Assembly of the core result from the extraction loop's outcome on the
path where the credential check, the save, the transcription and the
empty-transcript check have all passed with one transcription invocation. -/
def coreAssemble (t : String) : Except Exc Json × Nat × Nat → CoreResult
  | (.error e, g, v) => ⟨.error e, true, 1, g, v⟩
  | (.ok analysis, g, v) =>
    match pySetItem analysis "transcript" (.str t) with
    | .ok doc => ⟨.ok doc, true, 1, g, v⟩
    | .error e =>
      ⟨.error (.httpExc 500 ("Unexpected error: " ++ strExc e)), true, 1, g, v⟩

theorem analyze_core_run (env : Env) (t : String)
    (hk : (env.apiKey == "" || env.apiKey == "your_api_key_here") = false)
    (hs : env.saveErr = none)
    (ht : env.transcribe 0 = .ok t)
    (hne : (t == "" || pyStrip t == "") = false) :
    analyze_core env = coreAssemble t (extractLoop env.gen env.randG 0 2 "None") := by
  unfold analyze_core
  rw [hk, hs]
  simp only [Bool.false_eq_true, if_false]
  rw [retry_first_ok env.transcribe env.randT t ht]
  simp only [hne, Bool.false_eq_true, if_false]
  rcases hx : extractLoop env.gen env.randG 0 2 "None" with ⟨res, g, v⟩
  cases res with
  | error e => rfl
  | ok analysis =>
    cases hps : pySetItem analysis "transcript" (.str t) with
    | ok doc => simp [coreAssemble, hps]
    | error e => simp [coreAssemble, hps]

theorem attemptBody_err (gen : Nat → Outcome Content) (rand : Nat → ℚ)
    (off : Nat) (e : Exc) (hg : gen off = .err e) (hnt : isTransient e = false) :
    attemptBody gen rand off = (.error e, 1) := by
  unfold attemptBody
  rw [retry_first_nontransient _ _ e (by simpa using hg) hnt]

theorem attemptBody_ok (gen : Nat → Outcome Content) (rand : Nat → ℚ)
    (off : Nat) (c : Content) (hg : gen off = .ok c) :
    attemptBody gen rand off =
      (match c with
       | .malformed m => (.error (.jsonDecodeError m), 1)
       | .jsonVal j => (validateAnalysis j, 1)) := by
  unfold attemptBody
  rw [retry_first_ok _ _ c (by simpa using hg)]
  cases c <;> rfl

theorem attemptBody_second_ok (gen : Nat → Outcome Content) (rand : Nat → ℚ)
    (off : Nat) (e0 : Exc) (c : Content)
    (hg0 : gen off = .err e0) (ht0 : isTransient e0 = true)
    (hg1 : gen (off + 1) = .ok c) :
    attemptBody gen rand off =
      (match c with
       | .malformed m => (.error (.jsonDecodeError m), 2)
       | .jsonVal j => (validateAnalysis j, 2)) := by
  unfold attemptBody
  rw [retry_second_ok _ _ e0 c (by simpa using hg0) ht0 (by simpa using hg1)]
  cases c <;> rfl

theorem attemptBody_exhausted (gen : Nat → Outcome Content) (rand : Nat → ℚ)
    (off : Nat) (e0 e1 e2 : Exc)
    (hg0 : gen off = .err e0) (ht0 : isTransient e0 = true)
    (hg1 : gen (off + 1) = .err e1) (ht1 : isTransient e1 = true)
    (hg2 : gen (off + 2) = .err e2) :
    attemptBody gen rand off = (.error e2, 3) := by
  unfold attemptBody
  rw [retry_third_err _ _ e0 e1 e2 (by simpa using hg0) ht0 (by simpa using hg1)
    ht1 (by simpa using hg2)]

/-- The `last_error` string an extraction attempt records for a caught
deserialization or validation failure. -/
def leMsg : Exc → String
  | .jsonDecodeError m => "Invalid JSON from LLM: " ++ m
  | .valueError m => "Invalid response structure: " ++ m
  | _ => ""

theorem extractLoop_ok_step (gen : Nat → Outcome Content) (rand : Nat → ℚ)
    (off fuel : Nat) (lastErr : String) (a : Json) (n : Nat)
    (hab : attemptBody gen rand off = (.ok a, n)) :
    extractLoop gen rand off (fuel + 1) lastErr = (.ok a, n, 1) := by
  simp [extractLoop, hab]

theorem extractLoop_generic_step (gen : Nat → Outcome Content) (rand : Nat → ℚ)
    (off fuel : Nat) (lastErr : String) (e : Exc) (n : Nat)
    (hab : attemptBody gen rand off = (.error e, n))
    (hb : pyBranch e = .generic) :
    extractLoop gen rand off (fuel + 1) lastErr =
      (.error (.httpExc 500 ("LLM call failed: " ++ strExc e)), n, 1) := by
  cases e with
  | jsonDecodeError m => simp [pyBranch] at hb
  | valueError m => simp [pyBranch] at hb
  | httpExc s d => simp [extractLoop, hab]
  | typeError m => simp [extractLoop, hab]
  | keyError k => simp [extractLoop, hab]
  | apiError m => simp [extractLoop, hab]

theorem extractLoop_retry_step (gen : Nat → Outcome Content) (rand : Nat → ℚ)
    (off fuel : Nat) (lastErr : String) (e : Exc) (n : Nat)
    (hab : attemptBody gen rand off = (.error e, n))
    (hb : pyBranch e = .jsonDecode ∨ pyBranch e = .valueErr) :
    extractLoop gen rand off (fuel + 2) lastErr =
      ((extractLoop gen rand (off + n) (fuel + 1) (leMsg e)).1,
        n + (extractLoop gen rand (off + n) (fuel + 1) (leMsg e)).2.1,
        (extractLoop gen rand (off + n) (fuel + 1) (leMsg e)).2.2 + 1) := by
  cases e with
  | jsonDecodeError m => simp [extractLoop, hab, leMsg]
  | valueError m => simp [extractLoop, hab, leMsg]
  | httpExc s d => simp [pyBranch] at hb
  | typeError m => simp [pyBranch] at hb
  | keyError k => simp [pyBranch] at hb
  | apiError m => simp [pyBranch] at hb

theorem extractLoop_last_fail (gen : Nat → Outcome Content) (rand : Nat → ℚ)
    (off : Nat) (lastErr : String) (e : Exc) (n : Nat)
    (hab : attemptBody gen rand off = (.error e, n))
    (hb : pyBranch e = .jsonDecode ∨ pyBranch e = .valueErr) :
    extractLoop gen rand off 1 lastErr =
      (.error (.httpExc 500 (leMsg e)), n, 1) := by
  cases e with
  | jsonDecodeError m => simp [extractLoop, hab, leMsg]
  | valueError m => simp [extractLoop, hab, leMsg]
  | httpExc s d => simp [pyBranch] at hb
  | typeError m => simp [pyBranch] at hb
  | keyError k => simp [pyBranch] at hb
  | apiError m => simp [pyBranch] at hb

theorem any_setKVs_self (kvs : List (String × Json)) (k : String) (v : Json) :
    (setKVs kvs k v).any (fun kv => kv.1 == k) = true := by
  induction kvs with
  | nil => simp [setKVs]
  | cons kv rest ih =>
    by_cases h : kv.1 == k
    · simp [setKVs, h]
    · simp [setKVs, h, ih]

theorem find?_setKVs_ne (kvs : List (String × Json)) (k : String) (v : Json)
    (k' : String) (h : k' ≠ k) :
    (setKVs kvs k v).find? (fun kv => kv.1 == k') =
      kvs.find? (fun kv => kv.1 == k') := by
  have hkk' : (k == k') = false := beq_eq_false_iff_ne.mpr (Ne.symm h)
  induction kvs with
  | nil => simp [setKVs, List.find?, hkk']
  | cons kv rest ih =>
    by_cases hk : kv.1 == k
    · have hkeq : kv.1 = k := by simpa using hk
      simp [setKVs, hk, List.find?, hkk', hkeq]
    · simp only [setKVs, hk, if_false]
      by_cases hk' : kv.1 == k'
      · simp [List.find?, hk']
      · simp [List.find?, hk', ih]

theorem any_setKVs_ne (kvs : List (String × Json)) (k : String) (v : Json)
    (k' : String) (h : k' ≠ k) :
    (setKVs kvs k v).any (fun kv => kv.1 == k') =
      kvs.any (fun kv => kv.1 == k') := by
  induction kvs with
  | nil => simp [setKVs, Ne.symm h]
  | cons kv rest ih =>
    by_cases hk : kv.1 == k
    · have hkk : kv.1 = k := by simpa using hk
      simp [setKVs, hk, hkk, Ne.symm h]
    · simp [setKVs, hk, ih]

theorem missingFields_ok_nil (note : Json) (l : List String)
    (h : missingFields note l = .ok []) :
    ∀ f ∈ l, pyContains note f = .ok true := by
  induction l with
  | nil => simp
  | cons f fs ih =>
    cases hc : pyContains note f with
    | error e => simp [missingFields, hc] at h
    | ok b =>
      cases hr : missingFields note fs with
      | error e => simp [missingFields, hc, hr] at h
      | ok rest =>
        simp only [missingFields, hc, hr, Except.ok.injEq] at h
        cases b with
        | false => simp at h
        | true =>
          simp only [if_true] at h
          subst h
          intro g hg
          rcases List.mem_cons.mp hg with rfl | hgs
          · exact hc
          · exact ih hr g hgs

/-- The structural facts the claims state about a validated document: the
`"note"` member is present, every required field name is contained in it,
and the `"questions"` member is present. -/
def docWellFormed (j : Json) : Prop :=
  pyContains j "note" = .ok true ∧
  (∃ nv, pySubscript j "note" = .ok nv ∧
    ∀ f ∈ required_fields, pyContains nv f = .ok true) ∧
  pyContains j "questions" = .ok true

theorem validateAnalysis_ok_wf (j a : Json) (h : validateAnalysis j = .ok a) :
    docWellFormed a ∧ ∃ akvs, a = .obj akvs := by
  cases j with
  | null => simp [validateAnalysis, pyContains] at h
  | bool b => simp [validateAnalysis, pyContains] at h
  | num n => simp [validateAnalysis, pyContains] at h
  | str s =>
    by_cases hc : containsSubstring s "note" = true
    · simp [validateAnalysis, pyContains, pySubscript, hc] at h
    · simp only [Bool.not_eq_true] at hc
      simp [validateAnalysis, pyContains, pySubscript, hc] at h
  | arr xs =>
    by_cases hc : xs.any (fun x => match x with | .str s => s == "note" | _ => false) = true
    · simp [validateAnalysis, pyContains, pySubscript, hc] at h
    · simp only [Bool.not_eq_true] at hc
      simp [validateAnalysis, pyContains, pySubscript, hc] at h
  | obj kvs =>
    by_cases hn : kvs.any (fun kv => kv.1 == "note") = true
    · cases hf : kvs.find? (fun kv => kv.1 == "note") with
      | none =>
        simp [validateAnalysis, pyContains, pySubscript, hn, hf] at h
      | some kv =>
        cases hm : missingFields kv.2 required_fields with
        | error e =>
          simp [validateAnalysis, pyContains, pySubscript, hn, hf, hm] at h
        | ok missing =>
          by_cases hme : missing.isEmpty = true
          · have hmnil : missing = [] := by
              cases missing with
              | nil => rfl
              | cons x xs => simp [List.isEmpty] at hme
            subst hmnil
            by_cases hq : kvs.any (fun kv => kv.1 == "questions") = true
            · simp only [validateAnalysis, pyContains, pySubscript, hn, hf, hm,
                hq, List.isEmpty_nil, if_true, Bool.not_true,
                Bool.false_eq_true, if_false, Except.ok.injEq] at h
              subst h
              refine ⟨⟨by simpa [pyContains] using hn, ⟨kv.2, ?_, ?_⟩,
                by simpa [pyContains] using hq⟩, kvs, rfl⟩
              · simp [pySubscript, hf]
              · exact missingFields_ok_nil kv.2 required_fields hm
            · simp only [Bool.not_eq_true] at hq
              simp only [validateAnalysis, pyContains, pySubscript, hn, hf, hm,
                hq, List.isEmpty_nil, if_true, Bool.not_false, Bool.not_true,
                Bool.false_eq_true, if_false, if_true, pySetItem,
                Except.ok.injEq] at h
              subst h
              refine ⟨⟨?_, ⟨kv.2, ?_, ?_⟩, ?_⟩, _, rfl⟩
              · have := any_setKVs_ne kvs "questions" (.arr []) "note" (by decide)
                simp [pyContains, this, hn]
              · have := find?_setKVs_ne kvs "questions" (.arr []) "note" (by decide)
                simp [pySubscript, this, hf]
              · exact missingFields_ok_nil kv.2 required_fields hm
              · have := any_setKVs_self kvs "questions" (.arr [])
                simp [pyContains, this]
          · simp [validateAnalysis, pyContains, pySubscript, hn, hf, hm, hme] at h
    · simp only [Bool.not_eq_true] at hn
      simp [validateAnalysis, pyContains, hn] at h

theorem docWellFormed_setItem (kvs : List (String × Json)) (v : Json)
    (h : docWellFormed (.obj kvs)) :
    docWellFormed (.obj (setKVs kvs "transcript" v)) := by
  obtain ⟨hn, ⟨nv, hnv, hfs⟩, hq⟩ := h
  refine ⟨?_, ⟨nv, ?_, hfs⟩, ?_⟩
  · have := any_setKVs_ne kvs "transcript" v "note" (by decide)
    simpa [pyContains, this] using hn
  · have := find?_setKVs_ne kvs "transcript" v "note" (by decide)
    simpa [pySubscript, this] using hnv
  · have := any_setKVs_ne kvs "transcript" v "questions" (by decide)
    simpa [pyContains, this] using hq

theorem coreAssemble_valAttempts (t : String) (x : Except Exc Json × Nat × Nat) :
    (coreAssemble t x).valAttempts = x.2.2 := by
  rcases x with ⟨res, g, v⟩
  cases res with
  | error e => rfl
  | ok analysis =>
    cases hps : pySetItem analysis "transcript" (.str t) <;>
      simp [coreAssemble, hps]

theorem coreAssemble_genCalls (t : String) (x : Except Exc Json × Nat × Nat) :
    (coreAssemble t x).genCalls = x.2.1 := by
  rcases x with ⟨res, g, v⟩
  cases res with
  | error e => rfl
  | ok analysis =>
    cases hps : pySetItem analysis "transcript" (.str t) <;>
      simp [coreAssemble, hps]

theorem coreAssemble_err_response (t : String) (e : Exc) (g v : Nat) :
    (coreAssemble t (.error e, g, v)).response = .error e := rfl

theorem attemptBody_fst_ok (gen : Nat → Outcome Content) (rand : Nat → ℚ)
    (off : Nat) (a : Json) (n : Nat)
    (hab : attemptBody gen rand off = (.ok a, n)) :
    ∃ j, validateAnalysis j = .ok a := by
  cases hr : (call_with_retries (fun x => gen (off + x)) (fun x => rand (off + x))).result with
  | error e =>
    simp only [attemptBody, hr] at hab
    simp at hab
  | ok c =>
    simp only [attemptBody, hr] at hab
    cases c with
    | malformed m => simp at hab
    | jsonVal j =>
      simp only [Prod.mk.injEq] at hab
      exact ⟨j, hab.1⟩

theorem extractLoop_ok_inv (gen : Nat → Outcome Content) (rand : Nat → ℚ) :
    ∀ (fuel off : Nat) (lastErr : String) (a : Json) (g v : Nat),
      extractLoop gen rand off fuel lastErr = (.ok a, g, v) →
      ∃ j, validateAnalysis j = .ok a := by
  intro fuel
  induction fuel with
  | zero =>
    intro off lastErr a g v h
    simp [extractLoop] at h
  | succ fuel ih =>
    intro off lastErr a g v h
    rcases hab : attemptBody gen rand off with ⟨body, n⟩
    cases body with
    | ok a' =>
      have hstep := extractLoop_ok_step gen rand off fuel lastErr a' n hab
      rw [hstep] at h
      simp only [Prod.mk.injEq, Except.ok.injEq] at h
      exact h.1 ▸ attemptBody_fst_ok gen rand off a' n hab
    | error e =>
      cases e with
      | jsonDecodeError m =>
        cases fuel with
        | zero =>
          have hstep := extractLoop_last_fail gen rand off lastErr
            (.jsonDecodeError m) n hab (Or.inl rfl)
          rw [hstep] at h
          simp at h
        | succ fuel' =>
          have hstep := extractLoop_retry_step gen rand off fuel' lastErr
            (.jsonDecodeError m) n hab (Or.inl rfl)
          have hstep2 : extractLoop gen rand off (fuel' + 1 + 1) lastErr =
            ((extractLoop gen rand (off + n) (fuel' + 1) (leMsg (.jsonDecodeError m))).1,
              n + (extractLoop gen rand (off + n) (fuel' + 1) (leMsg (.jsonDecodeError m))).2.1,
              (extractLoop gen rand (off + n) (fuel' + 1) (leMsg (.jsonDecodeError m))).2.2 + 1) := hstep
          rw [hstep2] at h
          simp only [Prod.mk.injEq] at h
          rcases hrec : extractLoop gen rand (off + n) (fuel' + 1)
            (leMsg (.jsonDecodeError m)) with ⟨r1, r2, r3⟩
          rw [hrec] at h
          exact ih (off + n) (leMsg (.jsonDecodeError m)) a r2 r3
            (by rw [hrec]; exact Prod.ext h.1 (Prod.ext rfl rfl))
      | valueError m =>
        cases fuel with
        | zero =>
          have hstep := extractLoop_last_fail gen rand off lastErr
            (.valueError m) n hab (Or.inr rfl)
          rw [hstep] at h
          simp at h
        | succ fuel' =>
          have hstep := extractLoop_retry_step gen rand off fuel' lastErr
            (.valueError m) n hab (Or.inr rfl)
          have hstep2 : extractLoop gen rand off (fuel' + 1 + 1) lastErr =
            ((extractLoop gen rand (off + n) (fuel' + 1) (leMsg (.valueError m))).1,
              n + (extractLoop gen rand (off + n) (fuel' + 1) (leMsg (.valueError m))).2.1,
              (extractLoop gen rand (off + n) (fuel' + 1) (leMsg (.valueError m))).2.2 + 1) := hstep
          rw [hstep2] at h
          simp only [Prod.mk.injEq] at h
          rcases hrec : extractLoop gen rand (off + n) (fuel' + 1)
            (leMsg (.valueError m)) with ⟨r1, r2, r3⟩
          rw [hrec] at h
          exact ih (off + n) (leMsg (.valueError m)) a r2 r3
            (by rw [hrec]; exact Prod.ext h.1 (Prod.ext rfl rfl))
      | httpExc s d =>
        have hstep := extractLoop_generic_step gen rand off fuel lastErr
          (.httpExc s d) n hab rfl
        rw [hstep] at h
        simp at h
      | typeError m =>
        have hstep := extractLoop_generic_step gen rand off fuel lastErr
          (.typeError m) n hab rfl
        rw [hstep] at h
        simp at h
      | keyError k =>
        have hstep := extractLoop_generic_step gen rand off fuel lastErr
          (.keyError k) n hab rfl
        rw [hstep] at h
        simp at h
      | apiError m =>
        have hstep := extractLoop_generic_step gen rand off fuel lastErr
          (.apiError m) n hab rfl
        rw [hstep] at h
        simp at h

/-- The malformed-payload class of claim C2 — a generation response whose
content either fails to deserialize or deserializes but fails the
structural validation with a `ValueError` (missing note object or missing
required fields) — together with the `last_error` message the extraction
attempt records for it. -/
def malformedClaim : Content → Option String
  | .malformed m => some ("Invalid JSON from LLM: " ++ m)
  | .jsonVal j =>
    match validateAnalysis j with
    | .error (.valueError m) => some ("Invalid response structure: " ++ m)
    | _ => none

theorem attempt_of_malformed (gen : Nat → Outcome Content) (rand : Nat → ℚ)
    (off : Nat) (c : Content) (m : String)
    (hg : gen off = .ok c) (hm : malformedClaim c = some m) :
    ∃ e, attemptBody gen rand off = (.error e, 1) ∧
      (pyBranch e = .jsonDecode ∨ pyBranch e = .valueErr) ∧ leMsg e = m := by
  have hab := attemptBody_ok gen rand off c hg
  cases c with
  | malformed s =>
    simp only [malformedClaim, Option.some.injEq] at hm
    refine ⟨.jsonDecodeError s, hab, Or.inl rfl, ?_⟩
    simpa [leMsg] using hm
  | jsonVal j =>
    cases hv : validateAnalysis j with
    | ok a => simp [malformedClaim, hv] at hm
    | error e =>
      cases e with
      | valueError s =>
        simp only [malformedClaim, hv, Option.some.injEq] at hm
        have hab2 : attemptBody gen rand off = (validateAnalysis j, 1) := hab
        rw [hv] at hab2
        exact ⟨.valueError s, hab2, Or.inr rfl, by simpa [leMsg] using hm⟩
      | httpExc s d => simp [malformedClaim, hv] at hm
      | jsonDecodeError s => simp [malformedClaim, hv] at hm
      | typeError s => simp [malformedClaim, hv] at hm
      | keyError k => simp [malformedClaim, hv] at hm
      | apiError s => simp [malformedClaim, hv] at hm

/-- Claim C1: the two retry tiers are independent.  On a run that reaches
the extraction stage: (a) a generation-call failure that escapes the
Retrying Caller without transient retries (non-transient, and not a
deserialization/validation error) fails the extraction at once, after one
generation invocation and a single validation attempt; (b) a transient
generation failure that exhausts the Retrying Caller's three attempts
likewise propagates at once, consuming no further validation attempts;
(c) a transient failure absorbed inside the Retrying Caller does not
trigger a validation retry — the run succeeds within a single validation
attempt; (d) a second validation attempt occurs only when the first
attempt's body failed with a deserialization or validation error. -/
theorem claim_C1 :
    (∀ (env : Env) (b : Bool) (t : String) (e : Exc),
      (env.apiKey == "" || env.apiKey == "your_api_key_here") = false →
      env.saveErr = none →
      env.transcribe 0 = .ok t →
      (t == "" || pyStrip t == "") = false →
      env.gen 0 = .err e → isTransient e = false → pyBranch e = .generic →
      (analyze_audio env b).response =
          .error (.httpExc 500 ("LLM call failed: " ++ strExc e)) ∧
        (analyze_audio env b).genCalls = 1 ∧
        (analyze_audio env b).valAttempts = 1) ∧
    (∀ (env : Env) (b : Bool) (t : String) (e0 e1 e2 : Exc),
      (env.apiKey == "" || env.apiKey == "your_api_key_here") = false →
      env.saveErr = none →
      env.transcribe 0 = .ok t →
      (t == "" || pyStrip t == "") = false →
      env.gen 0 = .err e0 → isTransient e0 = true →
      env.gen 1 = .err e1 → isTransient e1 = true →
      env.gen 2 = .err e2 → pyBranch e2 = .generic →
      (analyze_audio env b).response =
          .error (.httpExc 500 ("LLM call failed: " ++ strExc e2)) ∧
        (analyze_audio env b).genCalls = 3 ∧
        (analyze_audio env b).valAttempts = 1) ∧
    (∀ (env : Env) (b : Bool) (t : String) (e0 : Exc) (j a : Json),
      (env.apiKey == "" || env.apiKey == "your_api_key_here") = false →
      env.saveErr = none →
      env.transcribe 0 = .ok t →
      (t == "" || pyStrip t == "") = false →
      env.gen 0 = .err e0 → isTransient e0 = true →
      env.gen 1 = .ok (.jsonVal j) → validateAnalysis j = .ok a →
      (∃ doc, (analyze_audio env b).response = .ok doc) ∧
        (analyze_audio env b).genCalls = 2 ∧
        (analyze_audio env b).valAttempts = 1) ∧
    (∀ (env : Env) (b : Bool) (t : String),
      (env.apiKey == "" || env.apiKey == "your_api_key_here") = false →
      env.saveErr = none →
      env.transcribe 0 = .ok t →
      (t == "" || pyStrip t == "") = false →
      (analyze_audio env b).valAttempts = 2 →
      ∃ e n, attemptBody env.gen env.randG 0 = (.error e, n) ∧
        (pyBranch e = .jsonDecode ∨ pyBranch e = .valueErr)) := by
  refine ⟨?_, ?_, ?_, ?_⟩
  · intro env b t e hk hs ht hne hg hnt hbr
    have hcore := analyze_core_run env t hk hs ht hne
    have hab := attemptBody_err env.gen env.randG 0 e hg hnt
    have hex : extractLoop env.gen env.randG 0 2 "None" =
        (.error (.httpExc 500 ("LLM call failed: " ++ strExc e)), 1, 1) :=
      extractLoop_generic_step env.gen env.randG 0 1 "None" e 1 hab hbr
    refine ⟨?_, ?_, ?_⟩
    · rw [analyze_audio_response, hcore, hex]
      exact coreAssemble_err_response t _ _ _
    · rw [analyze_audio_genCalls, hcore, coreAssemble_genCalls, hex]
    · rw [analyze_audio_valAttempts, hcore, coreAssemble_valAttempts, hex]
  · intro env b t e0 e1 e2 hk hs ht hne hg0 ht0 hg1 ht1 hg2 hbr
    have hcore := analyze_core_run env t hk hs ht hne
    have hab := attemptBody_exhausted env.gen env.randG 0 e0 e1 e2 hg0 ht0 hg1 ht1 hg2
    have hex : extractLoop env.gen env.randG 0 2 "None" =
        (.error (.httpExc 500 ("LLM call failed: " ++ strExc e2)), 3, 1) :=
      extractLoop_generic_step env.gen env.randG 0 1 "None" e2 3 hab hbr
    refine ⟨?_, ?_, ?_⟩
    · rw [analyze_audio_response, hcore, hex]
      exact coreAssemble_err_response t _ _ _
    · rw [analyze_audio_genCalls, hcore, coreAssemble_genCalls, hex]
    · rw [analyze_audio_valAttempts, hcore, coreAssemble_valAttempts, hex]
  · intro env b t e0 j a hk hs ht hne hg0 ht0 hg1 hv
    have hcore := analyze_core_run env t hk hs ht hne
    have hab : attemptBody env.gen env.randG 0 = (validateAnalysis j, 2) :=
      attemptBody_second_ok env.gen env.randG 0 e0 (.jsonVal j) hg0 ht0 hg1
    rw [hv] at hab
    have hex : extractLoop env.gen env.randG 0 2 "None" = (.ok a, 2, 1) :=
      extractLoop_ok_step env.gen env.randG 0 1 "None" a 2 hab
    obtain ⟨-, akvs, rfl⟩ := validateAnalysis_ok_wf j a hv
    refine ⟨⟨.obj (setKVs akvs "transcript" (.str t)), ?_⟩, ?_, ?_⟩
    · rw [analyze_audio_response, hcore, hex]
      rfl
    · rw [analyze_audio_genCalls, hcore, coreAssemble_genCalls, hex]
    · rw [analyze_audio_valAttempts, hcore, coreAssemble_valAttempts, hex]
  · intro env b t hk hs ht hne hva
    have hcore := analyze_core_run env t hk hs ht hne
    rw [analyze_audio_valAttempts, hcore, coreAssemble_valAttempts] at hva
    rcases hab : attemptBody env.gen env.randG 0 with ⟨body, n⟩
    cases body with
    | ok a =>
      have hex : extractLoop env.gen env.randG 0 2 "None" = (.ok a, n, 1) :=
        extractLoop_ok_step env.gen env.randG 0 1 "None" a n hab
      rw [hex] at hva
      simp at hva
    | error e =>
      cases e with
      | jsonDecodeError m =>
        exact ⟨Exc.jsonDecodeError m, n, hab ▸ rfl, Or.inl rfl⟩
      | valueError m =>
        exact ⟨Exc.valueError m, n, hab ▸ rfl, Or.inr rfl⟩
      | httpExc s d =>
        have hex : extractLoop env.gen env.randG 0 2 "None" =
            (.error (.httpExc 500 ("LLM call failed: " ++ strExc (.httpExc s d))), n, 1) :=
          extractLoop_generic_step env.gen env.randG 0 1 "None" _ n hab rfl
        rw [hex] at hva
        simp at hva
      | typeError m =>
        have hex : extractLoop env.gen env.randG 0 2 "None" =
            (.error (.httpExc 500 ("LLM call failed: " ++ strExc (.typeError m))), n, 1) :=
          extractLoop_generic_step env.gen env.randG 0 1 "None" _ n hab rfl
        rw [hex] at hva
        simp at hva
      | keyError k =>
        have hex : extractLoop env.gen env.randG 0 2 "None" =
            (.error (.httpExc 500 ("LLM call failed: " ++ strExc (.keyError k))), n, 1) :=
          extractLoop_generic_step env.gen env.randG 0 1 "None" _ n hab rfl
        rw [hex] at hva
        simp at hva
      | apiError m =>
        have hex : extractLoop env.gen env.randG 0 2 "None" =
            (.error (.httpExc 500 ("LLM call failed: " ++ strExc (.apiError m))), n, 1) :=
          extractLoop_generic_step env.gen env.randG 0 1 "None" _ n hab rfl
        rw [hex] at hva
        simp at hva

/-- Claim C2: two consecutive malformed generation payloads (failing to
deserialize, or missing the note object or one of its six required
fields) make the Structured Extractor perform exactly 2 validation
attempts and then fail with the 500 error carrying the last validation
failure message. -/
theorem claim_C2 (env : Env) (b : Bool) (t : String) (c0 c1 : Content)
    (m0 m1 : String)
    (hk : (env.apiKey == "" || env.apiKey == "your_api_key_here") = false)
    (hs : env.saveErr = none)
    (ht : env.transcribe 0 = .ok t)
    (hne : (t == "" || pyStrip t == "") = false)
    (hg0 : env.gen 0 = .ok c0) (hg1 : env.gen 1 = .ok c1)
    (hm0 : malformedClaim c0 = some m0) (hm1 : malformedClaim c1 = some m1) :
    (analyze_audio env b).response = .error (.httpExc 500 m1) ∧
      (analyze_audio env b).valAttempts = 2 ∧
      (analyze_audio env b).genCalls = 2 := by
  have hcore := analyze_core_run env t hk hs ht hne
  obtain ⟨e0, hab0, hb0, hl0⟩ := attempt_of_malformed env.gen env.randG 0 c0 m0 hg0 hm0
  obtain ⟨e1, hab1, hb1, hl1⟩ := attempt_of_malformed env.gen env.randG 1 c1 m1 hg1 hm1
  have hlast : extractLoop env.gen env.randG 1 1 (leMsg e0) =
      (.error (.httpExc 500 (leMsg e1)), 1, 1) :=
    extractLoop_last_fail env.gen env.randG 1 (leMsg e0) e1 1 hab1 hb1
  have hstep : extractLoop env.gen env.randG 0 2 "None" =
      ((extractLoop env.gen env.randG 1 1 (leMsg e0)).1,
        1 + (extractLoop env.gen env.randG 1 1 (leMsg e0)).2.1,
        (extractLoop env.gen env.randG 1 1 (leMsg e0)).2.2 + 1) :=
    extractLoop_retry_step env.gen env.randG 0 0 "None" e0 1 hab0 hb0
  rw [hlast] at hstep
  refine ⟨?_, ?_, ?_⟩
  · rw [analyze_audio_response, hcore, hstep, hl1]
    exact coreAssemble_err_response t _ _ _
  · rw [analyze_audio_valAttempts, hcore, coreAssemble_valAttempts, hstep]
  · rw [analyze_audio_genCalls, hcore, coreAssemble_genCalls, hstep]
    rfl

/-- Bindings of a schema-conformant note used as concrete test input. -/
def goodNoteKVs : List (String × Json) :=
  [("presenting_complaints", .str "Fever for 3 days"),
   ("past_history", .str "None documented"),
   ("investigations_ordered", .str "CBC"),
   ("diagnosis", .str "Viral fever"),
   ("treatment", .str "Paracetamol"),
   ("follow_up", .str "Return in 5 days")]

/-- A schema-conformant note object used as concrete test input. -/
def goodNote : Json := .obj goodNoteKVs

/-- A payload containing the note object and a questions list. -/
def goodPayload : Json := .obj [("note", goodNote), ("questions", .arr [.str "q1"])]

/-- A concrete environment whose external calls all succeed. -/
def baseEnv : Env :=
  { apiKey := "sk-test", filename := "visit.wav", saveErr := none,
    saveCreated := false,
    transcribe := fun _ => .ok "hello doctor",
    gen := fun _ => .ok (.jsonVal goodPayload),
    randT := fun _ => 0, randG := fun _ => 0 }

def envC1a : Env := { baseEnv with gen := fun _ => .err (.apiError "invalid api key") }

def envC1b : Env := { baseEnv with gen := fun _ => .err (.apiError "Request timeout") }

/-- Generation stream: one transient failure, then a valid payload. -/
def genTransientThenGood : Nat → Outcome Content := fun n =>
  if n == 0 then .err (.apiError "Request timeout") else .ok (.jsonVal goodPayload)

def envC1c : Env := { baseEnv with gen := genTransientThenGood }

/-- Generation stream: one malformed payload, then a valid payload. -/
def genMalformedThenGood : Nat → Outcome Content := fun n =>
  if n == 0 then .ok (.malformed "unterminated string (char 12)")
  else .ok (.jsonVal goodPayload)

def envC1d : Env := { baseEnv with gen := genMalformedThenGood }

theorem claim_C1_witness :
    isTransient (.apiError "invalid api key") = false ∧
    ((analyze_audio envC1a false).response =
        .error (.httpExc 500 "LLM call failed: invalid api key") ∧
      (analyze_audio envC1a false).genCalls = 1 ∧
      (analyze_audio envC1a false).valAttempts = 1) ∧
    isTransient (.apiError "Request timeout") = true ∧
    ((analyze_audio envC1b false).response =
        .error (.httpExc 500 "LLM call failed: Request timeout") ∧
      (analyze_audio envC1b false).genCalls = 3 ∧
      (analyze_audio envC1b false).valAttempts = 1) ∧
    ((∃ doc, (analyze_audio envC1c false).response = .ok doc) ∧
      (analyze_audio envC1c false).genCalls = 2 ∧
      (analyze_audio envC1c false).valAttempts = 1) ∧
    ((analyze_audio envC1d false).valAttempts = 2 ∧
      ∃ e n, attemptBody envC1d.gen envC1d.randG 0 = (.error e, n) ∧
        (pyBranch e = .jsonDecode ∨ pyBranch e = .valueErr)) := by
  refine ⟨by decide, ?_, by decide, ?_, ?_, ?_⟩
  · exact claim_C1.1 envC1a false "hello doctor" (.apiError "invalid api key")
      (by decide) rfl rfl (by decide) rfl (by decide) rfl
  · exact claim_C1.2.1 envC1b false "hello doctor"
      (.apiError "Request timeout") (.apiError "Request timeout")
      (.apiError "Request timeout")
      (by decide) rfl rfl (by decide) rfl (by decide) rfl (by decide) rfl rfl
  · exact claim_C1.2.2.1 envC1c false "hello doctor"
      (.apiError "Request timeout") goodPayload goodPayload
      (by decide) rfl rfl (by decide) rfl (by decide) rfl rfl
  · refine ⟨by decide, ?_⟩
    exact claim_C1.2.2.2 envC1d false "hello doctor"
      (by decide) rfl rfl (by decide) (by decide)

/-- Generation stream: a malformed payload, then one missing the note. -/
def genTwoBad : Nat → Outcome Content := fun n =>
  if n == 0 then .ok (.malformed "unterminated string (char 12)")
  else .ok (.jsonVal (.obj [("foo", .str "bar")]))

def envC2 : Env := { baseEnv with gen := genTwoBad }

theorem claim_C2_witness :
    malformedClaim (.malformed "unterminated string (char 12)") =
      some "Invalid JSON from LLM: unterminated string (char 12)" ∧
    malformedClaim (.jsonVal (.obj [("foo", .str "bar")])) =
      some "Invalid response structure: Response missing 'note' field" ∧
    (analyze_audio envC2 false).response =
      .error (.httpExc 500
        "Invalid response structure: Response missing 'note' field") ∧
    (analyze_audio envC2 false).valAttempts = 2 ∧
    (analyze_audio envC2 false).genCalls = 2 := by
  refine ⟨rfl, rfl, ?_⟩
  exact claim_C2 envC2 false "hello doctor"
    (.malformed "unterminated string (char 12)")
    (.jsonVal (.obj [("foo", .str "bar")]))
    "Invalid JSON from LLM: unterminated string (char 12)"
    "Invalid response structure: Response missing 'note' field"
    (by decide) rfl rfl (by decide) rfl rfl rfl rfl

/-- Claim C5: on every exit path, the temporary artifact is absent after
the request when removal succeeds; when removal itself fails the primary
response is unchanged (the failure does not mask the outcome), exactly one
warning is logged when a created file could not be removed, and no warning
is logged when removal succeeds. -/
theorem claim_C5 (env : Env) :
    (analyze_audio env false).tempExists = false ∧
    (analyze_audio env true).response = (analyze_audio env false).response ∧
    (analyze_audio env true).tempExists = (analyze_core env).created ∧
    (analyze_audio env true).cleanupWarnings =
      (if (analyze_core env).created then 1 else 0) ∧
    (analyze_audio env false).cleanupWarnings = 0 := by
  cases hc : (analyze_core env).created <;> simp [analyze_audio, hc]

/-- Claim C6: when the credential is absent or the placeholder, the
pipeline performs no external call, and returns the fixed fallback
document whose error member is the non-null string describing the missing
credential — independent of the audio input and of every other part of
the environment. -/
theorem claim_C6 (env : Env) (b : Bool)
    (h : env.apiKey = "" ∨ env.apiKey = "your_api_key_here") :
    (analyze_audio env b).response = .ok mock_with_error ∧
    (analyze_audio env b).transcribeCalls = 0 ∧
    (analyze_audio env b).genCalls = 0 ∧
    Json.lookup mock_with_error "error" =
      some (.str "API Key is missing or placeholder. Please update .env file.") := by
  have hk : (env.apiKey == "" || env.apiKey == "your_api_key_here") = true := by
    rcases h with h | h <;> simp [h]
  refine ⟨?_, ?_, ?_, rfl⟩
  · rw [analyze_audio_response]
    simp [analyze_core, hk]
  · rw [analyze_audio_transcribeCalls]
    simp [analyze_core, hk]
  · rw [analyze_audio_genCalls]
    simp [analyze_core, hk]

def envC6 : Env := { baseEnv with apiKey := "" }

theorem claim_C6_witness :
    (envC6.apiKey = "" ∨ envC6.apiKey = "your_api_key_here") ∧
    (analyze_audio envC6 false).response = .ok mock_with_error ∧
    (analyze_audio envC6 false).transcribeCalls = 0 ∧
    (analyze_audio envC6 false).genCalls = 0 := by
  have h := claim_C6 envC6 false (Or.inl rfl)
  exact ⟨Or.inl rfl, h.1, h.2.1, h.2.2.1⟩

def envC7 : Env := { baseEnv with transcribe := fun _ => .ok "   " }

/-- Claim C7 (code-bug evidence): on a whitespace-only transcript the
pipeline does skip the extraction stage without retrying, but the
`HTTPException(400, "Transcription returned empty text")` raised at
src/main.py line 121 is caught by the blanket `except Exception` of line
123 and re-wrapped, so the surfaced failure is the status-500
`Transcription failed: ...` error — the same shape as a transcription
transport failure — rather than a distinct empty-transcript failure. -/
theorem claim_C7_code_divergence :
    (analyze_audio envC7 false).response =
      .error (.httpExc 500
        "Transcription failed: 400: Transcription returned empty text") ∧
    (analyze_audio envC7 false).genCalls = 0 ∧
    (analyze_audio envC7 false).valAttempts = 0 ∧
    (analyze_audio envC7 false).transcribeCalls = 1 := by
  exact ⟨rfl, rfl, rfl, rfl⟩

theorem missingFields_nil_of_all (note : Json) (l : List String)
    (hall : ∀ f ∈ l, pyContains note f = .ok true) :
    missingFields note l = .ok [] := by
  induction l with
  | nil => rfl
  | cons f fs ih =>
    have hcf := hall f (List.mem_cons_self f fs)
    have hrest := ih (fun g hg => hall g (List.mem_cons_of_mem f hg))
    simp [missingFields, hcf, hrest]

theorem lookupKVs_setKVs_self (kvs : List (String × Json)) (k : String)
    (v : Json) :
    lookupKVs (setKVs kvs k v) k = some v := by
  induction kvs with
  | nil => simp [setKVs, lookupKVs, List.find?]
  | cons kv rest ih =>
    by_cases hk : kv.1 == k
    · simp [setKVs, hk, lookupKVs, List.find?]
    · simp only [setKVs, hk, if_false]
      simp [lookupKVs, List.find?, hk] at ih ⊢
      exact ih

theorem validateAnalysis_presence (kvs nkvs : List (String × Json)) (b : Bool)
    (hf : kvs.find? (fun kv => kv.1 == "note") = some ("note", .obj nkvs))
    (hfs : ∀ f ∈ required_fields, nkvs.any (fun kv => kv.1 == f) = true)
    (hq : kvs.any (fun kv => kv.1 == "questions") = b) :
    validateAnalysis (.obj kvs) =
      .ok (if b then .obj kvs else .obj (setKVs kvs "questions" (.arr []))) := by
  have hn : kvs.any (fun kv => kv.1 == "note") = true := by
    have hmem := List.mem_of_find?_eq_some hf
    have hp := List.find?_some hf
    exact List.any_eq_true.mpr ⟨_, hmem, hp⟩
  have hm : missingFields (.obj nkvs) required_fields = .ok [] :=
    missingFields_nil_of_all _ _ (fun f hf2 => by simp [pyContains, hfs f hf2])
  cases b with
  | true => simp [validateAnalysis, pyContains, pySubscript, hn, hf, hm, hq]
  | false =>
    simp [validateAnalysis, pyContains, pySubscript, pySetItem, hn, hf, hm, hq]

/-- Claim C8: a well-formed payload (note object present with all six
required fields) that lacks the `"questions"` member validates
successfully, and the validated result carries an empty questions list. -/
theorem claim_C8 (kvs nkvs : List (String × Json))
    (hf : kvs.find? (fun kv => kv.1 == "note") = some ("note", .obj nkvs))
    (hfs : ∀ f ∈ required_fields, nkvs.any (fun kv => kv.1 == f) = true)
    (hq : kvs.any (fun kv => kv.1 == "questions") = false) :
    validateAnalysis (.obj kvs) =
      .ok (.obj (setKVs kvs "questions" (.arr []))) ∧
    Json.lookup (.obj (setKVs kvs "questions" (.arr []))) "questions" =
      some (.arr []) := by
  refine ⟨?_, ?_⟩
  · simpa using validateAnalysis_presence kvs nkvs false hf hfs hq
  · simpa [Json.lookup] using lookupKVs_setKVs_self kvs "questions" (.arr [])

theorem claim_C8_witness :
    ([("note", goodNote)].any (fun kv => kv.1 == "questions") = false) ∧
    validateAnalysis (.obj [("note", goodNote)]) =
      .ok (.obj [("note", goodNote), ("questions", .arr [])]) ∧
    Json.lookup (.obj [("note", goodNote), ("questions", .arr [])]) "questions" =
      some (.arr []) := by
  have h := claim_C8 [("note", goodNote)] goodNoteKVs rfl (by decide) (by decide)
  exact ⟨by decide, h.1, h.2⟩

/-- Claim C10: structural validation checks only the presence of the
`"note"` key and of the six required field names inside it — never the
type or content of their values.  Any payload whose note object carries
the six field names validates successfully, whatever the field values
are, and every member of the payload other than the defaulted
`"questions"` is carried through into the result unchanged. -/
theorem claim_C10 (kvs nkvs : List (String × Json))
    (hf : kvs.find? (fun kv => kv.1 == "note") = some ("note", .obj nkvs))
    (hfs : ∀ f ∈ required_fields, nkvs.any (fun kv => kv.1 == f) = true) :
    ∃ out, validateAnalysis (.obj kvs) = .ok out ∧
      (∀ k, k ≠ "questions" → Json.lookup out k = Json.lookup (.obj kvs) k) ∧
      (kvs.any (fun kv => kv.1 == "questions") = true → out = .obj kvs) ∧
      (kvs.any (fun kv => kv.1 == "questions") = false →
        out = .obj (setKVs kvs "questions" (.arr [])) ∧
        Json.lookup out "questions" = some (.arr [])) := by
  cases hq : kvs.any (fun kv => kv.1 == "questions") with
  | true =>
    refine ⟨.obj kvs, ?_, ?_, fun _ => rfl, ?_⟩
    · simpa using validateAnalysis_presence kvs nkvs true hf hfs hq
    · intro k hk2
      rfl
    · intro hqf
      simp [hq] at hqf
  | false =>
    refine ⟨.obj (setKVs kvs "questions" (.arr [])), ?_, ?_, ?_, ?_⟩
    · simpa using validateAnalysis_presence kvs nkvs false hf hfs hq
    · intro k hk2
      simp [Json.lookup, lookupKVs,
        find?_setKVs_ne kvs "questions" (.arr []) k hk2]
    · intro hqt
      simp [hq] at hqt
    · intro _
      exact ⟨rfl, by simpa [Json.lookup] using
        lookupKVs_setKVs_self kvs "questions" (.arr [])⟩

/-- Note bindings whose values are deliberately not strings: the six
required field names are present but hold numbers, null, lists, objects
and booleans. -/
def weirdNoteKVs : List (String × Json) :=
  [("presenting_complaints", .num 5),
   ("past_history", .null),
   ("investigations_ordered", .arr []),
   ("diagnosis", .obj []),
   ("treatment", .bool true),
   ("follow_up", .num (-1))]

/-- A payload with non-string field values and an unexpected extra key. -/
def weirdKVs : List (String × Json) :=
  [("note", .obj weirdNoteKVs), ("extra", .str "kept")]

theorem claim_C10_witness :
    validateAnalysis (.obj weirdKVs) =
      .ok (.obj (setKVs weirdKVs "questions" (.arr []))) ∧
    Json.lookup (.obj (setKVs weirdKVs "questions" (.arr []))) "extra" =
      some (.str "kept") ∧
    Json.lookup (.obj (setKVs weirdKVs "questions" (.arr []))) "questions" =
      some (.arr []) := by
  obtain ⟨out, h1, h2, h3, h4⟩ := claim_C10 weirdKVs weirdNoteKVs rfl (by decide)
  obtain ⟨ho, hqv⟩ := h4 (by decide)
  subst ho
  exact ⟨h1, rfl, hqv⟩

def isJsonArr : Json → Bool
  | .arr _ => true
  | _ => false

def isJsonStr : Json → Bool
  | .str _ => true
  | _ => false

/-- Modelled from the spec's words (claim C9 data-model invariant), for
comparison with the code's documents: a diagnosis entry carries a name
and a category tag drawn from primary, suspect, differential. -/
def specDiagnosisEntry (j : Json) : Bool :=
  match j with
  | .obj kvs =>
    (kvs.any (fun kv => kv.1 == "name")) &&
    (match lookupKVs kvs "category" with
     | some (.str c) => c == "primary" || c == "suspect" || c == "differential"
     | _ => false)
  | _ => false

/-- Modelled from the spec's words (claim C9 data-model invariant), for
comparison with the code's documents: the complaint, history-item,
investigation, diagnosis, treatment and question fields are each a
present list, each diagnosis entry is tagged, and follow-up is text. -/
def specClinicalInvariant (doc : Json) : Bool :=
  (match Json.lookup doc "note" with
   | some nv =>
     (match Json.lookup nv "presenting_complaints" with
      | some v => isJsonArr v
      | none => false) &&
     (match Json.lookup nv "past_history" with
      | some v => isJsonArr v
      | none => false) &&
     (match Json.lookup nv "investigations_ordered" with
      | some v => isJsonArr v
      | none => false) &&
     (match Json.lookup nv "diagnosis" with
      | some (.arr ds) => ds.all specDiagnosisEntry
      | _ => false) &&
     (match Json.lookup nv "treatment" with
      | some v => isJsonArr v
      | none => false) &&
     (match Json.lookup nv "follow_up" with
      | some v => isJsonStr v
      | none => false)
   | none => false) &&
  (match Json.lookup doc "questions" with
   | some v => isJsonArr v
   | none => false)

/-- Shape the code's fallback document actually has: the six note fields
are present free-text strings and questions is a present list of strings. -/
def fallbackShape (j : Json) : Bool :=
  (match Json.lookup j "note" with
   | some nv =>
     required_fields.all (fun f =>
       match Json.lookup nv f with
       | some v => isJsonStr v
       | none => false)
   | none => false) &&
  (match Json.lookup j "questions" with
   | some (.arr qs) => qs.all isJsonStr
   | _ => false)

def envC9 : Env := { baseEnv with apiKey := "" }

/-- Claim C9 counterexample: the fallback run produces `mock_with_error`,
and that document violates the claimed data-model invariant — its fields
are free-text strings, not lists, and its diagnosis carries no category
tag. -/
theorem claim_C9_counterexample :
    (analyze_audio envC9 false).response = .ok mock_with_error ∧
    specClinicalInvariant mock_with_error = false := by
  exact ⟨rfl, rfl⟩

theorem mock_with_error_wf : docWellFormed mock_with_error := by
  refine ⟨rfl, ⟨_, rfl, ?_⟩, rfl⟩
  intro f hf
  simp only [required_fields, List.mem_cons, List.not_mem_nil, or_false] at hf
  rcases hf with rfl | rfl | rfl | rfl | rfl | rfl <;> rfl

/-- Claim C9 amended: every document the system returns — fallback and
success path alike — passes the code's presence checks (a note member
containing all six required field names per the containment test, and a
questions member), and in the fallback document the six note fields are
present free-text strings while questions is a string list; the fields
are not lists and diagnosis carries no category structure. -/
theorem claim_C9_amended :
    (∀ (env : Env) (b : Bool) (j : Json),
      (analyze_audio env b).response = .ok j → docWellFormed j) ∧
    fallbackShape mock_with_error = true := by
  refine ⟨?_, rfl⟩
  intro env b j h
  rw [analyze_audio_response] at h
  by_cases hk : (env.apiKey == "" || env.apiKey == "your_api_key_here") = true
  · simp only [analyze_core, hk, if_true, Except.ok.injEq] at h
    subst h
    exact mock_with_error_wf
  · have hk' : (env.apiKey == "" || env.apiKey == "your_api_key_here") = false := by
      simpa using hk
    cases hs : env.saveErr with
    | some m => simp [analyze_core, hk', hs] at h
    | none =>
      cases htr : (call_with_retries env.transcribe env.randT).result with
      | error e => simp [analyze_core, hk', hs, htr] at h
      | ok t =>
        by_cases hne : (t == "" || pyStrip t == "") = true
        · simp [analyze_core, hk', hs, htr, hne] at h
        · have hne' : (t == "" || pyStrip t == "") = false := by simpa using hne
          rcases hx : extractLoop env.gen env.randG 0 2 "None" with ⟨res, g, v⟩
          cases res with
          | error e => simp [analyze_core, hk', hs, htr, hne', hx] at h
          | ok a =>
            obtain ⟨j0, hv⟩ := extractLoop_ok_inv env.gen env.randG 2 0 "None" a g v hx
            obtain ⟨hwf, akvs, rfl⟩ := validateAnalysis_ok_wf j0 a hv
            simp only [analyze_core, hk', hs, htr, hne', hx, pySetItem,
              Bool.false_eq_true, if_false, Except.ok.injEq] at h
            subst h
            exact docWellFormed_setItem akvs (.str t) hwf

theorem claim_C9_amended_witness :
    (analyze_audio envC9 false).response = .ok mock_with_error ∧
    docWellFormed mock_with_error ∧
    fallbackShape mock_with_error = true := by
  exact ⟨rfl, claim_C9_amended.1 envC9 false mock_with_error rfl, claim_C9_amended.2⟩

end AuraScribe
